import Mathlib

/-!
Verification development for the Supa-Shots batch generation orchestrator.

The definitions below are a shallow embedding of the repository's source:
  - `services/geminiService.ts` (analyzeProduct, mapToGeminiAspectRatio,
    generateShot's retry loop, editShot),
  - `constants.ts` (style catalogs, quality suffixes, shot definitions,
    getShotDefinition),
  - `App.tsx` (handleImageSelect, handleGenerate, handleEditShot,
    saveToHistory, the SubjectTypeSelector onSelect handler),
  - `services/historyService.ts` (the IndexedDB store keyed by project id).

External effects (the Gemini backend, JSON.parse, IndexedDB) are modelled as
explicit parameters/oracles; JavaScript objects whose fields may be `undefined`
are modelled as structures of `Option` fields, and object spread as record
update.  The repository's `types.ts` is not present under src/; its shapes are
reconstructed from their uses (enum member literal values are taken to be the
member names; no claim depends on them).
-/

namespace SupaShots

/-- The `ProductStyle` string enum of types.ts: nine product-mode styles and
nine human-mode styles, as listed in constants.ts. -/
inductive ProductStyle where
  | HERO | MACRO | LIQUID | SCULPTURAL | FLOATING | SENSORY | COLOR | INGREDIENT | SURREAL
  | MCU | MS | OS | WS | HA | LA | P | ThreeQ | B
deriving DecidableEq

/-- The `SubjectType` enum of types.ts. -/
inductive SubjectType where
  | UNKNOWN | PRODUCT | HUMAN | MIXED
deriving DecidableEq

/-- The `AspectRatio` union of types.ts: the eight selectable ratios of
`ASPECT_RATIOS` in constants.ts. -/
inductive AspectRatio where
  | r1x1 | r2x3 | r3x2 | r3x4 | r4x3 | r9x16 | r16x9 | r21x9
deriving DecidableEq

/-- The literal string value of a `ProductStyle` member (used in template ids). -/
def styleKey : ProductStyle → String
  | .HERO => "HERO" | .MACRO => "MACRO" | .LIQUID => "LIQUID"
  | .SCULPTURAL => "SCULPTURAL" | .FLOATING => "FLOATING" | .SENSORY => "SENSORY"
  | .COLOR => "COLOR" | .INGREDIENT => "INGREDIENT" | .SURREAL => "SURREAL"
  | .MCU => "MCU" | .MS => "MS" | .OS => "OS" | .WS => "WS" | .HA => "HA"
  | .LA => "LA" | .P => "P" | .ThreeQ => "ThreeQ" | .B => "B"

/-- A runtime `GeneratedImage` object.  Every field is `Option`al because the
settlement updaters in App.tsx spread a possibly-`undefined` `prev[type]`,
which at runtime can produce objects missing any of these fields. -/
structure GeneratedImage where
  id : Option String := none
  shotType : Option ProductStyle := none
  imageUrl : Option String := none
  isLoading : Option Bool := none
  timestamp : Option Nat := none
  subjectType : Option SubjectType := none
  customPrompt : Option String := none
  error : Option String := none
deriving DecidableEq

/-- The `Record<string, GeneratedImage>` map of App.tsx, as an association
list in key-insertion order (JavaScript object key order). -/
abbrev ShotMap := List (ProductStyle × GeneratedImage)

/-- Reading `shots[type]`. -/
def lookupShot : ShotMap → ProductStyle → Option GeneratedImage
  | [], _ => none
  | (k, v) :: rest, s => if k = s then some v else lookupShot rest s

/-- Writing `shots[type] = v` on a JavaScript object: replace in place when the
key exists, append otherwise. -/
def setShot : ShotMap → ProductStyle → GeneratedImage → ShotMap
  | [], s, v => [(s, v)]
  | (k, w) :: rest, s, v =>
      if k = s then (k, v) :: rest else (k, w) :: setShot rest s v

/-- A `ProjectHistory` record of types.ts, as built by `saveToHistory`. -/
structure ProjectHistory where
  id : String
  timestamp : Nat
  sourceImage : String
  productName : String
  productDescription : String
  productCategory : String
  subjectType : SubjectType
  generatedShots : ShotMap
deriving DecidableEq

/-- The IndexedDB object store of historyService.ts (`keyPath: 'id'`), as an
association list from project id to stored snapshot. -/
abbrev ProjectStore := List (String × ProjectHistory)

/-- Reading the snapshot stored under a project id. -/
def lookupProject : ProjectStore → String → Option ProjectHistory
  | [], _ => none
  | (k, v) :: rest, pid => if k = pid then some v else lookupProject rest pid

/-- `db.put(STORE_NAME, project)` of saveProject in historyService.ts: an
IndexedDB put on a store with `keyPath: 'id'` overwrites the record stored
under `project.id`, or inserts it when absent. -/
def putProject : ProjectStore → ProjectHistory → ProjectStore
  | [], p => [(p.id, p)]
  | (k, q) :: rest, p =>
      if k = p.id then (k, p) :: rest else (k, q) :: putProject rest p

/-- A thrown JavaScript error value, with the fields generateShot's catch
clause inspects (`status`, `code`, `message`). -/
structure JsError where
  status : Option Nat := none
  code : Option Nat := none
  message : Option String := none
deriving DecidableEq

/-- Whether the character list `needle` leads the character list `hay`. -/
def listLead : List Char → List Char → Bool
  | [], _ => true
  | _ :: _, [] => false
  | a :: as, b :: bs => a == b && listLead as bs

/-- Whether `needle` occurs as a contiguous run inside `hay`. -/
def listHasSub (needle : List Char) : List Char → Bool
  | [] => listLead needle []
  | c :: rest => listLead needle (c :: rest) || listHasSub needle rest

/-- JavaScript `hay.includes(needle)` on strings. -/
def strIncludes (hay needle : String) : Bool :=
  listHasSub needle.toList hay.toList

/-- The rate-limit classification of generateShot's catch clause:
`error.status === 429 || error.code === 429 || (error.message &&
error.message.includes('429')) || (error.message &&
error.message.includes('RESOURCE_EXHAUSTED'))`. -/
def isRateLimitError (e : JsError) : Bool :=
  e.status == some 429 || e.code == some 429 ||
    (match e.message with
     | some m => strIncludes m "429" || strIncludes m "RESOURCE_EXHAUSTED"
     | none => false)

/-- The `inlineData` member of a Gemini response part. -/
structure InlineData where
  data : Option String := none
deriving DecidableEq

/-- One part of a Gemini response candidate's content. -/
structure GenPart where
  inlineData : Option InlineData := none
deriving DecidableEq

/-- The `content` member of a Gemini response candidate. -/
structure GenContent where
  parts : Option (List GenPart) := none
deriving DecidableEq

/-- One candidate of a Gemini `generateContent` response. -/
structure GenCandidate where
  content : Option GenContent := none
deriving DecidableEq

/-- A Gemini `generateContent` response as generateShot reads it. -/
structure GenResponse where
  candidates : Option (List GenCandidate) := none
deriving DecidableEq

/-- The `Error("No image data found in response")` generateShot throws when a
response carries no image part. -/
def noImageError : JsError :=
  { message := some "No image data found in response" }

/-- The never-reached final `Error` of generateShot (thrown only if the while
loop were exited, which its own guard prevents). -/
def exhaustedError (shotId : String) : JsError :=
  { message := some ("Failed to generate shot " ++ shotId ++ " after 3 retries") }

/-- The scan of generateShot over the parts of a response: the first part with
a truthy `inlineData.data` yields the data-URL result. -/
def firstImagePart : List GenPart → Option String
  | [] => none
  | p :: rest =>
    match p.inlineData with
    | some idata =>
      match idata.data with
      | some d =>
          if d.isEmpty then firstImagePart rest
          else some ("data:image/jpeg;base64," ++ d)
      | none => firstImagePart rest
    | none => firstImagePart rest

/-- `response.candidates?.[0]?.content?.parts` with optional chaining. -/
def responseParts (resp : GenResponse) : Option (List GenPart) :=
  match resp.candidates with
  | some (c :: _) =>
    (match c.content with
     | some content => content.parts
     | none => none)
  | _ => none

/-- One iteration body of generateShot's try block, given the backend's
response to the n-th call (`calls n`): a response without image data throws
`noImageError` into the same catch clause as a backend rejection. -/
def attemptCall (calls : Nat → Except JsError GenResponse) (n : Nat) :
    Except JsError String :=
  match calls n with
  | .error e => .error e
  | .ok resp =>
    match responseParts resp with
    | some parts =>
      (match firstImagePart parts with
       | some url => .ok url
       | none => .error noImageError)
    | none => .error noImageError

/-- `const MAX_RETRIES = 3` of generateShot. -/
def MAX_RETRIES : Nat := 3

deriving instance DecidableEq for Except

/-- The settled outcome of one generateShot invocation: the returned data URL
or the thrown error, how many backend calls were made, and the backoff delays
awaited, in order. -/
structure GenOutcome where
  result : Except JsError String
  callsMade : Nat
  delays : List Nat
deriving DecidableEq

/-- generateShot's `while (attempt <= MAX_RETRIES)` loop.  A rate-limited
failure with `attempt < MAX_RETRIES` waits `2^(attempt+1) * 1000` ms and
retries; any other failure is rethrown at once; leaving the loop (unreachable
from `attempt = 0`) throws `exhaustedError`. -/
def genLoop (calls : Nat → Except JsError GenResponse) (shotId : String)
    (attempt : Nat) (delays : List Nat) : GenOutcome :=
  if _h : attempt ≤ MAX_RETRIES then
    match attemptCall calls attempt with
    | .ok url => ⟨.ok url, attempt + 1, delays⟩
    | .error e =>
      if isRateLimitError e ∧ attempt < MAX_RETRIES then
        genLoop calls shotId (attempt + 1) (delays ++ [2 ^ (attempt + 1) * 1000])
      else ⟨.error e, attempt + 1, delays⟩
  else ⟨.error (exhaustedError shotId), attempt, delays⟩
termination_by MAX_RETRIES + 1 - attempt
decreasing_by omega

/-- A full generateShot run: the loop entered at `attempt = 0` with no delays
incurred. -/
def generateShotRun (calls : Nat → Except JsError GenResponse)
    (shotId : String) : GenOutcome :=
  genLoop calls shotId 0 []

/-- `mapToGeminiAspectRatio` of geminiService.ts: 2:3, 3:2 and 21:9 map to the
nearest supported ratio; everything else passes through unchanged. -/
def mapToGeminiAspectRatio : AspectRatio → AspectRatio
  | .r2x3 => .r3x4
  | .r3x2 => .r4x3
  | .r21x9 => .r16x9
  | r => r

/-- `ASPECT_RATIOS` of constants.ts. -/
def ASPECT_RATIOS : List AspectRatio :=
  [.r1x1, .r2x3, .r3x2, .r3x4, .r4x3, .r9x16, .r16x9, .r21x9]

/-- The ratios Gemini 2.5 Flash Image supports, per the comment above
`mapToGeminiAspectRatio` in geminiService.ts. -/
def GEMINI_SUPPORTED_RATIOS : List AspectRatio :=
  [.r1x1, .r3x4, .r4x3, .r9x16, .r16x9]

/-- The parsed JSON object of analyzeProduct, before the `||` defaults are
applied.  Every field is `Option`al: `JSON.parse` may yield an object missing
any of them.  `confidence` is a number; ℚ stands in for it. -/
structure RawAnalysis where
  productName : Option String := none
  description : Option String := none
  category : Option String := none
  confidence : Option ℚ := none
  isHuman : Option Bool := none
  framingQuality : Option String := none
  recommendations : Option (List String) := none

/-- The `ProductAnalysisResult` of types.ts, as analyzeProduct builds it:
`isHuman` and `framingQuality` may be absent (the fallback descriptor omits
them, and `isHuman` is passed through unconditionally). -/
structure ProductAnalysisResult where
  productName : String
  description : String
  category : String
  confidence : ℚ
  isHuman : Option Bool := none
  framingQuality : Option String := none
  recommendations : List String
deriving DecidableEq

/-- JavaScript `o || d` on a possibly-undefined string: `undefined` and the
empty string are falsy. -/
def jsOrStr (o : Option String) (d : String) : String :=
  match o with
  | none => d
  | some s => if s.isEmpty then d else s

/-- JavaScript `o || d` on a possibly-undefined number: `undefined` and `0`
are falsy (ℚ has no NaN, which would also be falsy). -/
def jsOrQ (o : Option ℚ) (d : ℚ) : ℚ :=
  match o with
  | none => d
  | some q => if q = 0 then d else q

/-- The cleanup analyzeProduct applies to the model's text before parsing:
`text.replace(/```json/g, '').replace(/```/g, '').trim()`. -/
def cleanAnalysisText (text : String) : String :=
  ((text.replace "```json" "").replace "```" "").trim

/-- The fixed fallback descriptor both catch clauses of analyzeProduct
return: generic name and description, confidence 0, no `isHuman` or
`framingQuality` field. -/
def defaultAnalysisResult : ProductAnalysisResult :=
  { productName := "Subject"
    description := "A detailed shot of the subject."
    category := "general"
    confidence := 0
    recommendations := [] }

/-- analyzeProduct of geminiService.ts.  The Gemini call is the oracle
`backendResult` (`.error` for a rejected call, `.ok` carrying the possibly
absent `response.text`); `JSON.parse` plus field access is the oracle
`parseJson` (`.error` for a parse exception).  Both catch clauses return
`defaultAnalysisResult`; the function never throws. -/
def analyzeProduct (backendResult : Except JsError (Option String))
    (parseJson : String → Except JsError RawAnalysis) : ProductAnalysisResult :=
  match backendResult with
  | .error _ => defaultAnalysisResult
  | .ok textOpt =>
    let text := textOpt.getD ""
    let jsonStr := cleanAnalysisText text
    match parseJson jsonStr with
    | .error _ => defaultAnalysisResult
    | .ok result =>
      { productName := jsOrStr result.productName "Subject"
        description := jsOrStr result.description "A detailed shot of the subject."
        category := jsOrStr result.category "general"
        confidence := jsOrQ result.confidence (4/5)
        isHuman := result.isHuman
        framingQuality := some (jsOrStr result.framingQuality "ok")
        recommendations := result.recommendations.getD [] }

/-- `PRODUCT_QUALITY_SUFFIX` of constants.ts. -/
def PRODUCT_QUALITY_SUFFIX : String :=
  "\nCRITICAL REQUIREMENTS:\n- Product must be 100% accurate in shape, proportions, color, label, typography, and branding.\n- Zero distortion, deformation, or product redesign.\n- Clean separation between product and background.\n- Professional studio lighting (soft, controlled, no harsh shadows).\n- Editorial luxury advertising aesthetic.\n- High-end commercial campaign quality. 4K resolution look.\n"

/-- `HUMAN_QUALITY_SUFFIX` of constants.ts. -/
def HUMAN_QUALITY_SUFFIX : String :=
  "\nCRITICAL REQUIREMENTS:\n- Subject must be 100% accurate in facial features, expression, and likeness.\n- Zero distortion of anatomy, face, or hands.\n- Skin texture must look natural and high-end retouch quality.\n- Professional portrait lighting (Rembrandt, Butterfly, or Loop lighting).\n- Editorial fashion aesthetic.\n- High-end magazine cover quality. 4K resolution look.\n"

/-- `PRODUCT_STYLES` of constants.ts: the product-mode catalog, in order. -/
def PRODUCT_STYLES : List ProductStyle :=
  [.HERO, .MACRO, .LIQUID, .SCULPTURAL, .FLOATING, .SENSORY, .COLOR, .INGREDIENT, .SURREAL]

/-- `HUMAN_STYLES` of constants.ts: the human-mode catalog, in order. -/
def HUMAN_STYLES : List ProductStyle :=
  [.MCU, .MS, .OS, .WS, .HA, .LA, .P, .ThreeQ, .B]

/-- A `ShotDefinition` of types.ts. -/
structure ShotDefinition where
  id : ProductStyle
  label : String
  description : String
  emotional : String
  promptTemplate : String
deriving DecidableEq

/-- `SHOT_DEFINITIONS` of constants.ts: the immutable base template of every
style of both catalogs. -/
def SHOT_DEFINITIONS : ProductStyle → ShotDefinition
  | .HERO =>
    { id := .HERO, label := "Iconic Hero"
      description := "Definitive showcase with bold composition and commanding presence."
      emotional := "Authority, Desire, Aspiration"
      promptTemplate := "Create an iconic hero shot of the same [PRODUCT] with bold, striking composition. The subject must be 100% accurate—no distortion. Position as the clear hero with commanding presence. Minimal supporting elements if any. Clean white or sophisticated neutral background. Professional studio lighting with dramatic key light. Ultra-sharp focus, high dynamic range. Premium luxury advertising aesthetic. This is the definitive hero shot for brand campaigns." }
  | .MACRO =>
    { id := .MACRO, label := "Extreme Macro"
      description := "High-magnification detail shot emphasizing texture and craftsmanship."
      emotional := "Intimacy, Precision, Quality"
      promptTemplate := "Create an extreme macro close-up detail shot of the same [PRODUCT] highlighting texture, finish, or fine details. Magnify the craftsmanship/features dramatically. Ultra-shallow depth of field with artistic blur. Raking light that emphasizes texture. The subject must be 100% accurate—no distortion. Sharp focus on the detail, everything else artistically blurred. Premium luxury aesthetic." }
  | .LIQUID =>
    { id := .LIQUID, label := "Dynamic Energy"
      description := "High-speed capture with liquid splashes or particle interactions."
      emotional := "Energy, Freshness, Motion"
      promptTemplate := "Create a dynamic, energetic shot of the same [PRODUCT] with liquid splash, pour, or particle interaction. The subject must be 100% accurate and clearly recognizable—positioned as the anchor within the dynamic interaction. The elements should surround, complement, or interact naturally. Captured mid-action. Professional studio lighting revealing both detail and movement energy. High-speed photography effect suggesting dynamism. Editorial luxury aesthetic." }
  | .SCULPTURAL =>
    { id := .SCULPTURAL, label := "Sculptural Minimal"
      description := "Geometric arrangement with abstract forms and strong shadows."
      emotional := "Balance, Modernity, Art"
      promptTemplate := "Create a minimal sculptural arrangement of the same [PRODUCT] surrounded by abstract geometric forms (blocks, spheres, planes, clean shapes). The subject must be 100% accurate and clearly recognizable as the focal point. Composition is extremely minimal with prominent negative space. Geometric precision in arrangement. Professional studio lighting emphasizing form and shadow. Strong geometric shadows creating depth. Monochromatic or controlled color palette. Editorial, design-focused aesthetic." }
  | .FLOATING =>
    { id := .FLOATING, label := "Anti-Gravity"
      description := "Levitating composition suggesting lightness and innovation."
      emotional := "Innovation, Future, Uplift"
      promptTemplate := "Create a floating, weightless composition of the same [PRODUCT] appearing to levitate or float suspended. The subject must be 100% accurate and undistorted. Suggest innovation or ethereal quality through suspension in space. Supporting elements float around the subject creating sense of uplift and lightness. Professional studio lighting highlighting undersides and creating dimensional shadow suggesting ground distance. Clear or ethereal background. Contemporary, aspirational aesthetic." }
  | .SENSORY =>
    { id := .SENSORY, label := "Sensory Tactile"
      description := "Intimate framing emphasizing material authenticity and touch."
      emotional := "Connection, Warmth, Tactility"
      promptTemplate := "Create a sensory, intimate close-up of the same [PRODUCT] emphasizing tactility and hyperreal authenticity. The subject must be 100% accurate. Frame the subject to suggest touchability and immediate desire. Close-up proximity making viewer feel connection. Features rendered in hyperreal detail. Warm, intimate studio lighting creating sensory appeal." }
  | .COLOR =>
    { id := .COLOR, label := "Color Concept"
      description := "Scene built entirely around the subject's color palette."
      emotional := "Harmony, Identity, Mood"
      promptTemplate := "Create a color-driven conceptual scene of the same [PRODUCT] where the entire composition is built around the subject's color palette. Extract and amplify the primary colors, building a harmonious scene around this palette. The composition may be abstract or conceptual, but always anchored by the subject as the focal point. Color harmony is paramount—monochromatic, analogous, or color-blocked. Professional studio lighting emphasizing color saturation and richness." }
  | .INGREDIENT =>
    { id := .INGREDIENT, label := "Component Story"
      description := "Symbolic arrangement of ingredients or materials."
      emotional := "Integrity, Nature, Source"
      promptTemplate := "Create an ingredient or component abstraction composition of the same [PRODUCT]. Extract and visually represent the key ingredients, materials, or elements that create this subject. Presentation is non-literal and symbolic—a conceptual arrangement. The subject must be 100% accurate and positioned as the hero result of these component elements. Abstract, artistic, sophisticated. Editorial luxury aesthetic." }
  | .SURREAL =>
    { id := .SURREAL, label := "Surreal Fusion"
      description := "Dream-like fusion of realism and imagination."
      emotional := "Wonder, Magic, Uniqueness"
      promptTemplate := "Create a surreal yet elegant fusion scene featuring the same [PRODUCT] merged or blended with imaginative, dream-like elements that feel impossible yet visually elegant. The subject must be 100% accurate and clearly recognizable, but seamlessly integrated into this surreal fusion. Refined surrealism—not chaotic. Unexpected juxtapositions that create memorable visual impact. Grounded in photorealism. Rich color palette, saturated and dreamlike. Editorial luxury aesthetic." }
  | .MCU =>
    { id := .MCU, label := "Macro Close Up"
      description := "Extreme facial detail, eye focus, expression capture"
      emotional := "Intimacy, Vulnerability, Detail"
      promptTemplate := "Create a macro close-up shot of the same person showing extreme detail with professional studio lighting, sharp focus on facial features, and minimal background. Shallow depth of field with soft bokeh. Focus on eyes with perfect clarity. Skin texture and detail should be visible and flattering. Professional beauty photography style." }
  | .MS =>
    { id := .MS, label := "Medium Shot"
      description := "Professional portrait standard, waist-up framing"
      emotional := "Professional, Approachable, Confident"
      promptTemplate := "Create a medium shot showing the same person from waist up with clear detail. Professional portrait lighting setup with warm key light and subtle fill. Neutral background slightly out of focus. Subject should look confident and approachable. Studio photography quality with excellent skin tone and feature definition." }
  | .OS =>
    { id := .OS, label := "Over the Shoulder"
      description := "Intimate perspective, relationship focus, 45-degree angle"
      emotional := "Intimate, Engaging, Relatable"
      promptTemplate := "Create an over-the-shoulder perspective shot at approximately 45 degrees of the same person. Show the person's shoulder partially in frame on one side while their face is visible in three-quarter view. Professional lighting that wraps around the subject. Background slightly blurred but contextual. Intimate and engaging composition." }
  | .WS =>
    { id := .WS, label := "Wide Shot"
      description := "Full-body with environment, storytelling composition"
      emotional := "Contextual, Environmental, Storytelling"
      promptTemplate := "Create a full-body wide shot showing the same person with surrounding environment visible and contributing to composition. Cinematic framing with balanced depth. The person should be positioned following rule of thirds. Professional lighting that complements the setting. Rich color and environmental detail visible." }
  | .HA =>
    { id := .HA, label := "High Angle"
      description := "From above looking down, vulnerable mood, contemplative"
      emotional := "Vulnerable, Introspective, Humble"
      promptTemplate := "Create a high-angle shot from above at 45-60 degree angle, looking down at the same person with dramatic perspective. The person should appear vulnerable or contemplative. Top-lighting that creates dimension. Subject in lower frame position with space above. Professional lighting that emphasizes the downward perspective." }
  | .LA =>
    { id := .LA, label := "Low Angle"
      description := "From below looking up, powerful/heroic mood, confident"
      emotional := "Powerful, Heroic, Dominant"
      promptTemplate := "Create a low-angle shot from below looking up at the same person with powerful dramatic perspective. The person should appear confident and commanding. Upward-tilted camera creates heroic composition. Subject fills upper frame with sky or ceiling visible below. Dramatic lighting that emphasizes power and dominance." }
  | .P =>
    { id := .P, label := "Profile View"
      description := "Pure 90-degree side view, classical silhouette"
      emotional := "Classical, Defined, Structured"
      promptTemplate := "Create a pure profile view at 90-degree side angle showing the same person in clean silhouette. The profile should be sharp and well-defined showing complete side features from forehead to chin. Professional side-lighting that emphasizes facial structure and contours. One eye clearly visible with sharp focus. Neutral background creates clean profile separation." }
  | .ThreeQ =>
    { id := .ThreeQ, label := "Three-Quarter View"
      description := "Most popular angle, natural dimensional perspective"
      emotional := "Natural, Dimensional, Personable"
      promptTemplate := "Create a three-quarter angle view with the same person turned 45 degrees, showing approximately three-quarters of the face. Both eyes should be visible with natural dimensional appearance. Professional three-quarter lighting (Rembrandt style) with key light creating shadow triangle. Good cheekbone and jawline definition. Soft focus background. Warm skin tones and flattering facial positioning." }
  | .B =>
    { id := .B, label := "Back View"
      description := "Back view, hair detail, movement, story"
      emotional := "Mystery, Intrigue, Motion"
      promptTemplate := "Create a back view shot showing the same person from behind with body posture clearly visible. Full back including shoulders and head visible. Environmental context visible and contributing to story. Hair detail and texture visible. Professional lighting that emphasizes form and creates dimension. Backlighting or side-lighting creates rim light on edges. The back view creates sense of movement, mystery, or contemplation." }

/-- getShotDefinition of constants.ts: the base definition with the quality
suffix appended.  The suffix is chosen by `HUMAN_STYLES.includes(style)`; the
`subjectType` parameter (defaulted to PRODUCT at the call sites that omit it)
is never consulted. -/
def getShotDefinition (style : ProductStyle)
    (subjectType : SubjectType := SubjectType.PRODUCT) : ShotDefinition :=
  let d := SHOT_DEFINITIONS style
  let isHumanStyle := HUMAN_STYLES.contains style
  let suffix := if isHumanStyle then HUMAN_QUALITY_SUFFIX else PRODUCT_QUALITY_SUFFIX
  { d with promptTemplate := d.promptTemplate ++ suffix }

/-- The orchestrator state of App.tsx: the React state cells the generation,
edit and persistence flows read and write. -/
structure AppState where
  sourceImage : Option String := none
  productName : String := "product"
  productDescription : String := ""
  productCategory : String := ""
  subjectType : SubjectType := SubjectType.PRODUCT
  aspectRatio : AspectRatio := AspectRatio.r3x4
  generatedShots : ShotMap := []
  currentProjectId : Option String := none
deriving DecidableEq

/-- `activeStyles` of App.tsx: the catalog of the current subject mode. -/
def activeStyles (subjectType : SubjectType) : List ProductStyle :=
  if subjectType = SubjectType.HUMAN then HUMAN_STYLES else PRODUCT_STYLES

/-- The synchronous state updates of handleImageSelect: a new source image
clears the shots, resets the project identity and returns the mode to
PRODUCT (the subsequent analysis only fills the descriptor fields). -/
def handleImageSelect (s : AppState) (base64 : String) : AppState :=
  { s with sourceImage := some base64
           generatedShots := []
           currentProjectId := none
           subjectType := SubjectType.PRODUCT }

/-- One freshly initialised task entry of handleGenerate's `initialShots`. -/
def mkInitialShot (type : ProductStyle) (now : Nat) (subjectType : SubjectType) :
    GeneratedImage :=
  { id := some (styleKey type ++ "-" ++ toString now)
    shotType := some type
    imageUrl := some ""
    isLoading := some true
    timestamp := some now
    subjectType := some subjectType }

/-- handleGenerate's `initialShots` record: one entry per style of the target
catalog, built in catalog order by JavaScript object insertion. -/
def mkInitialShots (styles : List ProductStyle) (now : Nat)
    (subjectType : SubjectType) : ShotMap :=
  styles.foldl (fun acc type => setShot acc type (mkInitialShot type now subjectType)) []

/-- The synchronous prefix of handleGenerate: bail out without a source image,
mint the project id when none exists, and replace the whole shots map with the
fresh batch for the currently active catalog. -/
def handleGenerateStart (s : AppState) (now : Nat) : AppState :=
  match s.sourceImage with
  | none => s
  | some _ =>
    let activeProjectId := s.currentProjectId.getD (toString now)
    { s with currentProjectId := some activeProjectId
             generatedShots :=
               mkInitialShots (activeStyles s.subjectType) now s.subjectType }

/-- The success settlement closure of handleGenerate's `processQueue`:
`setGeneratedShots(prev => ({ ...prev, [type]: { ...prev[type], imageUrl,
isLoading: false } }))`.  A `prev` without an entry for `type` spreads
`undefined`, i.e. the all-absent object. -/
def applyTaskSuccess (type : ProductStyle) (imageUrl : String)
    (prev : ShotMap) : ShotMap :=
  setShot prev type
    { (lookupShot prev type).getD {} with imageUrl := some imageUrl
                                          isLoading := some false }

/-- The failure settlement closure of handleGenerate's `processQueue`:
`setGeneratedShots(prev => ({ ...prev, [type]: { ...prev[type], isLoading:
false, error: 'Failed to generate' } }))`. -/
def applyTaskFailure (type : ProductStyle) (prev : ShotMap) : ShotMap :=
  setShot prev type
    { (lookupShot prev type).getD {} with isLoading := some false
                                          error := some "Failed to generate" }

/-- The SubjectTypeSelector `onSelect` handler of App.tsx: adopt the chosen
mode and, when it differs from the current one, discard all shots. -/
def handleModeSelect (s : AppState) (t : SubjectType) : AppState :=
  let s1 := { s with subjectType := t }
  if t ≠ s.subjectType then { s1 with generatedShots := [] } else s1

/-- The `ProjectHistory` record `saveToHistory` builds. -/
def mkProjectHistory (s : AppState) (shots : ShotMap) (projectId : String)
    (now : Nat) (src : String) : ProjectHistory :=
  { id := projectId
    timestamp := now
    sourceImage := src
    productName := s.productName
    productDescription := s.productDescription
    productCategory := s.productCategory
    subjectType := s.subjectType
    generatedShots := shots }

/-- saveToHistory of App.tsx: no write without a source image; otherwise the
snapshot (under `pid`, or a freshly minted id when `pid` is null) is written
through saveProject, and a freshly minted id is adopted as the current one.
The returned Option is the snapshot handed to the Persistence Store. -/
def saveToHistory (s : AppState) (shots : ShotMap) (pid : Option String)
    (now : Nat) : AppState × Option ProjectHistory :=
  match s.sourceImage with
  | none => (s, none)
  | some src =>
    let projectId := pid.getD (toString now)
    let project := mkProjectHistory s shots projectId now src
    (if pid = none then { s with currentProjectId := some projectId } else s,
     some project)

/-- JavaScript truthiness of a possibly-undefined string field. -/
def jsTruthyStr (o : Option String) : Bool :=
  match o with
  | none => false
  | some str => !str.isEmpty

/-- handleEditShot of App.tsx.  `outcome` is the settled editShot call (a
single backend call, no retry policy).  Missing or never-rendered target:
no-op.  Otherwise the target entry is flipped to loading; on success the
pre-edit entry is rebuilt with the new output, a fresh timestamp and the
custom instruction, written back under its style key, and the full new map is
saved under the current project id; on failure only the target entry records
the edit error.  The second component is the snapshot written, if any. -/
def handleEditShot (s : AppState) (type : ProductStyle) (customPrompt : String)
    (outcome : Except JsError String) (now : Nat) :
    AppState × Option ProjectHistory :=
  match lookupShot s.generatedShots type with
  | none => (s, none)
  | some currentShot =>
    if jsTruthyStr currentShot.imageUrl then
      let loading := setShot s.generatedShots type
        { (lookupShot s.generatedShots type).getD {} with isLoading := some true
                                                          error := none }
      match outcome with
      | .ok imageUrl =>
        let updatedShot : GeneratedImage :=
          { currentShot with imageUrl := some imageUrl
                             isLoading := some false
                             timestamp := some now
                             customPrompt := some customPrompt }
        let next := setShot loading type updatedShot
        let save := saveToHistory s next s.currentProjectId now
        ({ save.1 with generatedShots := next }, save.2)
      | .error _ =>
        let failed := setShot loading type
          { (lookupShot loading type).getD {} with isLoading := some false
                                                   error := some "Edit failed" }
        ({ s with generatedShots := failed }, none)
    else (s, none)

/-- The user- and network-driven events of the orchestrator that the claims
range over.  A task settlement event is the asynchronous completion of a
`processQueue` closure: it carries only what that closure captured (the style
and the settled call), and is applied to whatever state is current — exactly
as the functional `setGeneratedShots` updaters are. -/
inductive AppEvent where
  | imageSelect (base64 : String)
  | generateStart (now : Nat)
  | taskSuccess (type : ProductStyle) (imageUrl : String)
  | taskFailure (type : ProductStyle)
  | modeSelect (t : SubjectType)

/-- One orchestrator step. -/
def stepApp (s : AppState) : AppEvent → AppState
  | .imageSelect base64 => handleImageSelect s base64
  | .generateStart now => handleGenerateStart s now
  | .taskSuccess type imageUrl =>
      { s with generatedShots := applyTaskSuccess type imageUrl s.generatedShots }
  | .taskFailure type =>
      { s with generatedShots := applyTaskFailure type s.generatedShots }
  | .modeSelect t => handleModeSelect s t

/-- A run of the orchestrator from a state through a list of events. -/
def runApp (s : AppState) (events : List AppEvent) : AppState :=
  events.foldl stepApp s

/-! Concrete fixtures used by witnesses and counterexamples. -/

/-- A backend rejection carrying HTTP status 429. -/
def rateLimitedError : JsError := { status := some 429 }

/-- A backend that rejects every call with the 429 error. -/
def alwaysRateLimited : Nat → Except JsError GenResponse :=
  fun _ => Except.error rateLimitedError

/-- A backend rejection that the catch clause does not classify as a rate
limit. -/
def otherError : JsError := { status := some 500, message := some "Internal error" }

/-- A backend that rejects every call with the non-rate-limit error. -/
def alwaysOtherError : Nat → Except JsError GenResponse :=
  fun _ => Except.error otherError

/-- A response carrying one image part with data `"IMG"`. -/
def okImageResponse : GenResponse :=
  { candidates := some [{ content := some { parts := some [{ inlineData := some { data := some "IMG" } }] } }] }

/-- A backend that rejects the first three calls with the 429 error and
fulfills the fourth with an image. -/
def rlThenOk : Nat → Except JsError GenResponse :=
  fun n => if n < 3 then Except.error rateLimitedError else Except.ok okImageResponse

/-- A backend whose first call already fulfills with an image. -/
def alwaysOk : Nat → Except JsError GenResponse :=
  fun _ => Except.ok okImageResponse

/-- An analyzer transport failure. -/
def networkError : JsError := { message := some "fetch failed" }

/-- A JSON.parse oracle that rejects every input. -/
def parseReject : String → Except JsError RawAnalysis :=
  fun _ => Except.error { message := some "Unexpected token" }

/-- An event trace: a batch is launched for image A (project id 100), the
user then picks image B and launches its batch (project id 200), and only
afterwards does a task launched under image A's batch settle. -/
def staleTrace : List AppEvent :=
  [AppEvent.imageSelect "imageA", AppEvent.generateStart 100,
   AppEvent.imageSelect "imageB", AppEvent.generateStart 200,
   AppEvent.taskSuccess ProductStyle.HERO "staleResultFromImageA"]

/-- A settled HERO entry of the edit fixture. -/
def heroSettled : GeneratedImage :=
  { id := some "HERO-1", shotType := some ProductStyle.HERO
    imageUrl := some "heroUrl", isLoading := some false
    timestamp := some 1, subjectType := some SubjectType.PRODUCT }

/-- A settled MACRO entry of the edit fixture. -/
def macroSettled : GeneratedImage :=
  { id := some "MACRO-1", shotType := some ProductStyle.MACRO
    imageUrl := some "macroUrl", isLoading := some false
    timestamp := some 1, subjectType := some SubjectType.PRODUCT }

/-- A settled two-task state under project id 42. -/
def editFixture : AppState :=
  { sourceImage := some "img"
    generatedShots := [(ProductStyle.HERO, heroSettled), (ProductStyle.MACRO, macroSettled)]
    currentProjectId := some "42" }

/-- A state that only has a source image selected. -/
def uploadedFixture : AppState := { sourceImage := some "img" }

/-- A snapshot under project id 1. -/
def pSample : ProjectHistory :=
  { id := "1", timestamp := 10, sourceImage := "img", productName := "A"
    productDescription := "", productCategory := ""
    subjectType := SubjectType.PRODUCT, generatedShots := [] }

/-- A different snapshot under the same project id 1. -/
def qSample : ProjectHistory :=
  { id := "1", timestamp := 20, sourceImage := "img", productName := "B"
    productDescription := "", productCategory := ""
    subjectType := SubjectType.PRODUCT, generatedShots := [] }

/-! Helper lemmas about the map operations and the retry loop. -/

/-- Writing a key and reading it back yields the written entry. -/
theorem lookupShot_setShot_self (m : ShotMap) (k : ProductStyle) (v : GeneratedImage) :
    lookupShot (setShot m k v) k = some v := by
  induction m with
  | nil => simp [setShot, lookupShot]
  | cons hd tl ih =>
    obtain ⟨k', w⟩ := hd
    by_cases h : k' = k
    · simp [setShot, lookupShot, h]
    · simp [setShot, lookupShot, h, ih]

/-- Writing one key leaves every other key's entry untouched. -/
theorem lookupShot_setShot_ne (m : ShotMap) (k t : ProductStyle) (v : GeneratedImage)
    (h : k ≠ t) : lookupShot (setShot m k v) t = lookupShot m t := by
  induction m with
  | nil => simp [setShot, lookupShot, h]
  | cons hd tl ih =>
    obtain ⟨k', w⟩ := hd
    by_cases hk : k' = k
    · subst hk
      simp [setShot, lookupShot, h]
    · simp only [setShot, lookupShot, if_neg hk]
      by_cases ht : k' = t
      · simp [lookupShot, ht]
      · simp [lookupShot, ht, ih]

/-- Storing under an id and reading that id back yields the stored snapshot. -/
theorem lookupProject_putProject_self (db : ProjectStore) (p : ProjectHistory) :
    lookupProject (putProject db p) p.id = some p := by
  induction db with
  | nil => simp [putProject, lookupProject]
  | cons hd tl ih =>
    obtain ⟨k, q⟩ := hd
    by_cases h : k = p.id
    · simp [putProject, lookupProject, h]
    · simp [putProject, lookupProject, h, ih]

/-- A later put under the same id fully replaces an earlier one: no state of
the earlier write survives. -/
theorem putProject_putProject_same (db : ProjectStore) (p q : ProjectHistory)
    (h : p.id = q.id) :
    putProject (putProject db p) q = putProject db q := by
  induction db with
  | nil => simp [putProject, h]
  | cons hd tl ih =>
    obtain ⟨k, r⟩ := hd
    by_cases hk : k = p.id
    · subst hk
      simp [putProject, h]
    · have hk' : ¬ k = q.id := h ▸ hk
      simp [putProject, hk, hk', ih]

/-- One retrying iteration of the while loop: a rate-limited failure below the
retry bound waits `2^(attempt+1) * 1000` ms and re-enters the loop with
`attempt + 1`. -/
theorem genLoop_step_retry (calls : Nat → Except JsError GenResponse)
    (shotId : String) (attempt : Nat) (delays : List Nat) (e : JsError)
    (hlt : attempt < MAX_RETRIES)
    (hc : attemptCall calls attempt = Except.error e)
    (hr : isRateLimitError e = true) :
    genLoop calls shotId attempt delays =
      genLoop calls shotId (attempt + 1) (delays ++ [2 ^ (attempt + 1) * 1000]) := by
  rw [genLoop.eq_def]
  rw [dif_pos (Nat.le_of_lt hlt), hc]
  simp [hr, hlt]

/-- A fulfilled call returns the data URL at once: `attempt + 1` calls made,
the delays so far untouched. -/
theorem genLoop_step_ok (calls : Nat → Except JsError GenResponse)
    (shotId : String) (attempt : Nat) (delays : List Nat) (url : String)
    (hle : attempt ≤ MAX_RETRIES)
    (hc : attemptCall calls attempt = Except.ok url) :
    genLoop calls shotId attempt delays = ⟨Except.ok url, attempt + 1, delays⟩ := by
  rw [genLoop.eq_def]
  rw [dif_pos hle, hc]

/-- A failure that is not a retryable rate limit below the bound is rethrown
at once. -/
theorem genLoop_step_fail (calls : Nat → Except JsError GenResponse)
    (shotId : String) (attempt : Nat) (delays : List Nat) (e : JsError)
    (hle : attempt ≤ MAX_RETRIES)
    (hc : attemptCall calls attempt = Except.error e)
    (hstop : ¬(isRateLimitError e = true ∧ attempt < MAX_RETRIES)) :
    genLoop calls shotId attempt delays = ⟨Except.error e, attempt + 1, delays⟩ := by
  rw [genLoop.eq_def]
  rw [dif_pos hle, hc]
  simp only [if_neg hstop]

/-! Claim theorems. -/

/-- C5.  The aspect ratio handed to the Generation Backend is given by the
fixed table of `mapToGeminiAspectRatio`: 2:3 maps to 3:4, 3:2 to 4:3, 21:9 to
16:9, and each of the five backend-supported ratios passes through
unchanged. -/
theorem aspect_ratio_mapping_fixed_table :
    mapToGeminiAspectRatio AspectRatio.r2x3 = AspectRatio.r3x4
    ∧ mapToGeminiAspectRatio AspectRatio.r3x2 = AspectRatio.r4x3
    ∧ mapToGeminiAspectRatio AspectRatio.r21x9 = AspectRatio.r16x9
    ∧ (GEMINI_SUPPORTED_RATIOS.all fun r => mapToGeminiAspectRatio r == r) = true := by
  decide

/-- C9.  Persisting a snapshot is idempotent per project id: writing the same
snapshot twice leaves the store exactly as writing it once; a later write
under the same id fully overwrites the earlier one (latest content wins, no
merging of the two writes); and the snapshot read back under the id is the one
last written. -/
theorem saveProject_idempotent_overwrite (db : ProjectStore)
    (p q : ProjectHistory) (h : p.id = q.id) :
    putProject (putProject db p) p = putProject db p
    ∧ putProject (putProject db p) q = putProject db q
    ∧ lookupProject (putProject db q) q.id = some q :=
  ⟨putProject_putProject_same db p p rfl,
   putProject_putProject_same db p q h,
   lookupProject_putProject_self db q⟩

/-- C9 witness: two writes of the same snapshot equal one write, a rewritten
id holds the newer content, and the read-back is the last write. -/
theorem saveProject_idempotent_overwrite_witness :
    putProject (putProject [] pSample) pSample = putProject [] pSample
    ∧ putProject (putProject [] pSample) qSample = putProject [] qSample
    ∧ lookupProject (putProject [] qSample) qSample.id = some qSample :=
  saveProject_idempotent_overwrite [] pSample qSample rfl

/-- C10.  getShotDefinition ignores its `subjectType` argument entirely: for
any two subject types the result is identical, and it always equals the
style's base definition with the quality suffix appended, the suffix chosen
solely by membership of the style in the human catalog. -/
theorem getShotDefinition_ignores_subjectType (style : ProductStyle)
    (st1 st2 : SubjectType) :
    getShotDefinition style st1 = getShotDefinition style st2
    ∧ getShotDefinition style st1 =
        { SHOT_DEFINITIONS style with
          promptTemplate := (SHOT_DEFINITIONS style).promptTemplate ++
            (if HUMAN_STYLES.contains style then HUMAN_QUALITY_SUFFIX
             else PRODUCT_QUALITY_SUFFIX) } :=
  ⟨rfl, rfl⟩

/-- C1 counterexample.  In the trace `staleTrace`, a task launched under image
A's batch (project id 100) settles after image B's batch (project id 200) has
replaced it; its settlement is applied anyway, overwriting B's freshly
initialised HERO entry with the stale output from A.  No identity check
discards it, contradicting the claim that such a settlement never appears in
the new batch's state. -/
theorem stale_settlement_lands_in_new_batch :
    (runApp {} staleTrace).currentProjectId = some "200"
    ∧ lookupShot (runApp {} staleTrace).generatedShots ProductStyle.HERO =
        some { id := some "HERO-200", shotType := some ProductStyle.HERO
               imageUrl := some "staleResultFromImageA", isLoading := some false
               timestamp := some 200, subjectType := some SubjectType.PRODUCT } := by
  constructor <;> rfl

/-- C1 amended.  A task settlement is applied unconditionally to whatever
shots map is current when it arrives: the settling closure merges its result
under its style key (spreading the entry found there, or a fresh empty object
when the batch was replaced), with no batch-identity check. -/
theorem task_settlement_applied_unconditionally (s : AppState)
    (type : ProductStyle) (imageUrl : String) :
    lookupShot (stepApp s (AppEvent.taskSuccess type imageUrl)).generatedShots type =
      some { (lookupShot s.generatedShots type).getD {} with
             imageUrl := some imageUrl, isLoading := some false } := by
  simp [stepApp, applyTaskSuccess, lookupShot_setShot_self]

/-- C2 counterexample.  With every call rate-limited, the run ends with the
4th backend rejection rethrown as-is (and the App records the generic
'Failed to generate'): the error is not the code's exhausted-retries error,
whose construction is unreachable.  Exactly 4 calls are made. -/
theorem exhausted_retries_reason_counterexample :
    (generateShotRun alwaysRateLimited "HERO").result = Except.error rateLimitedError
    ∧ (generateShotRun alwaysRateLimited "HERO").callsMade = 4
    ∧ rateLimitedError ≠ exhaustedError "HERO" := by
  have hrun : generateShotRun alwaysRateLimited "HERO" =
      ⟨Except.error rateLimitedError, 4, [2000, 4000, 8000]⟩ := by
    unfold generateShotRun
    rw [genLoop_step_retry alwaysRateLimited "HERO" 0 [] rateLimitedError
          (by decide) rfl (by decide),
        genLoop_step_retry alwaysRateLimited "HERO" 1 _ rateLimitedError
          (by decide) rfl (by decide),
        genLoop_step_retry alwaysRateLimited "HERO" 2 _ rateLimitedError
          (by decide) rfl (by decide),
        genLoop_step_fail alwaysRateLimited "HERO" 3 _ rateLimitedError
          (by decide) rfl (fun hcon => absurd hcon.2 (by decide))]
    norm_num
  exact ⟨by rw [hrun], by rw [hrun], by decide⟩

/-- C2 amended.  A task whose four calls are all rejected with rate-limit
errors ends Failed by rethrowing the fourth rate-limit error itself (not a
constructed exhausted-retries error), after the three backoff delays; exactly
4 backend calls are made, so no 5th call occurs. -/
theorem rateLimited_all_four_calls_rethrows_final
    (calls : Nat → Except JsError GenResponse) (shotId : String)
    (e0 e1 e2 e3 : JsError)
    (h0 : attemptCall calls 0 = Except.error e0) (hr0 : isRateLimitError e0 = true)
    (h1 : attemptCall calls 1 = Except.error e1) (hr1 : isRateLimitError e1 = true)
    (h2 : attemptCall calls 2 = Except.error e2) (hr2 : isRateLimitError e2 = true)
    (h3 : attemptCall calls 3 = Except.error e3) (hr3 : isRateLimitError e3 = true) :
    generateShotRun calls shotId = ⟨Except.error e3, 4, [2000, 4000, 8000]⟩ := by
  unfold generateShotRun
  rw [genLoop_step_retry calls shotId 0 [] e0 (by decide) h0 hr0,
      genLoop_step_retry calls shotId 1 _ e1 (by decide) h1 hr1,
      genLoop_step_retry calls shotId 2 _ e2 (by decide) h2 hr2,
      genLoop_step_fail calls shotId 3 _ e3 (by decide) h3
        (fun hcon => absurd hcon.2 (by decide))]
  norm_num

/-- C2 witness: the amended theorem at the all-rate-limited backend. -/
theorem rateLimited_all_four_calls_rethrows_final_witness :
    generateShotRun alwaysRateLimited "MACRO" =
      ⟨Except.error rateLimitedError, 4, [2000, 4000, 8000]⟩ :=
  rateLimited_all_four_calls_rethrows_final alwaysRateLimited "MACRO"
    rateLimitedError rateLimitedError rateLimitedError rateLimitedError
    rfl (by decide) rfl (by decide) rfl (by decide) rfl (by decide)

/-- C3.  A task rate-limited on calls 1-3 and fulfilled on call 4 ends
Succeeded with the returned data URL, makes exactly 4 calls, and incurs
backoff delays of exactly 2000, 4000 and 8000 ms in that order
(`2^(n+1) * 1000` before the n-th retry, n = 0, 1, 2). -/
theorem rateLimited_thrice_then_success
    (calls : Nat → Except JsError GenResponse) (shotId : String)
    (e0 e1 e2 : JsError) (url : String)
    (h0 : attemptCall calls 0 = Except.error e0) (hr0 : isRateLimitError e0 = true)
    (h1 : attemptCall calls 1 = Except.error e1) (hr1 : isRateLimitError e1 = true)
    (h2 : attemptCall calls 2 = Except.error e2) (hr2 : isRateLimitError e2 = true)
    (h3 : attemptCall calls 3 = Except.ok url) :
    generateShotRun calls shotId = ⟨Except.ok url, 4, [2000, 4000, 8000]⟩ := by
  unfold generateShotRun
  rw [genLoop_step_retry calls shotId 0 [] e0 (by decide) h0 hr0,
      genLoop_step_retry calls shotId 1 _ e1 (by decide) h1 hr1,
      genLoop_step_retry calls shotId 2 _ e2 (by decide) h2 hr2,
      genLoop_step_ok calls shotId 3 _ url (by decide) h3]
  norm_num

/-- C3 witness: three 429 rejections then an image. -/
theorem rateLimited_thrice_then_success_witness :
    generateShotRun rlThenOk "HERO" =
      ⟨Except.ok "data:image/jpeg;base64,IMG", 4, [2000, 4000, 8000]⟩ :=
  rateLimited_thrice_then_success rlThenOk "HERO"
    rateLimitedError rateLimitedError rateLimitedError "data:image/jpeg;base64,IMG"
    rfl (by decide) rfl (by decide) rfl (by decide) rfl

/-- C4.  A first call rejected with an error not classified as a rate limit
ends the task Failed at once: one backend call, no backoff delay; and the
App's failure settlement records the failure on that task's entry alone. -/
theorem nonRateLimit_first_failure_is_final
    (calls : Nat → Except JsError GenResponse) (shotId : String) (e : JsError)
    (hc : attemptCall calls 0 = Except.error e)
    (hr : isRateLimitError e = false) :
    generateShotRun calls shotId = ⟨Except.error e, 1, []⟩
    ∧ ∀ (prev : ShotMap) (type : ProductStyle),
        lookupShot (applyTaskFailure type prev) type =
          some { (lookupShot prev type).getD {} with
                 isLoading := some false, error := some "Failed to generate" } := by
  constructor
  · unfold generateShotRun
    exact genLoop_step_fail calls shotId 0 [] e (by decide) hc (by simp [hr])
  · intro prev type
    simp [applyTaskFailure, lookupShot_setShot_self]

/-- C4 witness: a 500-class error on the first call. -/
theorem nonRateLimit_first_failure_is_final_witness :
    generateShotRun alwaysOtherError "HERO" = ⟨Except.error otherError, 1, []⟩
    ∧ ∀ (prev : ShotMap) (type : ProductStyle),
        lookupShot (applyTaskFailure type prev) type =
          some { (lookupShot prev type).getD {} with
                 isLoading := some false, error := some "Failed to generate" } :=
  nonRateLimit_first_failure_is_final alwaysOtherError "HERO" otherError rfl (by decide)

/-- C6.  analyzeProduct is total (the embedding returns a plain result on
every path, mirroring the code's enclosing try/catch), and on any failure —
the backend call rejecting, or its output failing to parse — it returns the
fixed default descriptor: confidence 0, generic name and description. -/
theorem analyzeProduct_defaults_on_failure
    (backendResult : Except JsError (Option String))
    (parseJson : String → Except JsError RawAnalysis)
    (hfail : (∃ e, backendResult = Except.error e)
      ∨ (∃ t e, backendResult = Except.ok t
           ∧ parseJson (cleanAnalysisText (t.getD "")) = Except.error e)) :
    analyzeProduct backendResult parseJson = defaultAnalysisResult
    ∧ defaultAnalysisResult.confidence = 0
    ∧ defaultAnalysisResult.productName = "Subject"
    ∧ defaultAnalysisResult.description = "A detailed shot of the subject." := by
  refine ⟨?_, rfl, rfl, rfl⟩
  rcases hfail with ⟨e, he⟩ | ⟨t, e, ht, hp⟩
  · rw [he]
    rfl
  · rw [ht]
    simp [analyzeProduct, hp]

/-- C6 witness: the default descriptor on a transport failure, discharged at
the rejecting backend and the rejecting parser. -/
theorem analyzeProduct_defaults_on_failure_witness :
    analyzeProduct (Except.error networkError) parseReject = defaultAnalysisResult
    ∧ defaultAnalysisResult.confidence = 0
    ∧ defaultAnalysisResult.productName = "Subject"
    ∧ defaultAnalysisResult.description = "A detailed shot of the subject." :=
  analyzeProduct_defaults_on_failure (Except.error networkError) parseReject
    (Or.inl ⟨networkError, rfl⟩)

/-- C7.  A successful edit of one style in a settled batch triggers exactly
one persistence write of the full current batch; in the written snapshot the
targeted entry is the pre-edit entry with the new output, the recorded custom
instruction and a fresh timestamp, and every other style's entry equals its
entry before the edit. -/
theorem edit_updates_only_target_and_persists (s : AppState)
    (type : ProductStyle) (cs : GeneratedImage) (customPrompt url src : String)
    (now : Nat)
    (hcs : lookupShot s.generatedShots type = some cs)
    (htruthy : jsTruthyStr cs.imageUrl = true)
    (hsrc : s.sourceImage = some src) :
    ∃ p : ProjectHistory,
      (handleEditShot s type customPrompt (Except.ok url) now).2 = some p
      ∧ p.generatedShots =
          (handleEditShot s type customPrompt (Except.ok url) now).1.generatedShots
      ∧ lookupShot p.generatedShots type =
          some { cs with imageUrl := some url, isLoading := some false
                         timestamp := some now, customPrompt := some customPrompt }
      ∧ ∀ t : ProductStyle, t ≠ type →
          lookupShot p.generatedShots t = lookupShot s.generatedShots t := by
  unfold handleEditShot
  rw [hcs]
  simp only [htruthy, if_pos]
  unfold saveToHistory
  rw [hsrc]
  refine ⟨_, rfl, rfl, ?_, ?_⟩
  · exact lookupShot_setShot_self _ _ _
  · intro t ht
    simp only [mkProjectHistory]
    rw [lookupShot_setShot_ne _ _ _ _ (fun hh => ht hh.symm),
        lookupShot_setShot_ne _ _ _ _ (fun hh => ht hh.symm)]

/-- C7 witness: editing HERO in a settled two-task batch; the persisted
snapshot updates HERO alone and keeps MACRO's entry identical. -/
theorem edit_updates_only_target_and_persists_witness :
    ∃ p : ProjectHistory,
      (handleEditShot editFixture ProductStyle.HERO "make it blue"
          (Except.ok "newHeroUrl") 777).2 = some p
      ∧ p.generatedShots =
          (handleEditShot editFixture ProductStyle.HERO "make it blue"
              (Except.ok "newHeroUrl") 777).1.generatedShots
      ∧ lookupShot p.generatedShots ProductStyle.HERO =
          some { heroSettled with imageUrl := some "newHeroUrl"
                                  isLoading := some false
                                  timestamp := some 777
                                  customPrompt := some "make it blue" }
      ∧ ∀ t : ProductStyle, t ≠ ProductStyle.HERO →
          lookupShot p.generatedShots t = lookupShot editFixture.generatedShots t :=
  edit_updates_only_target_and_persists editFixture ProductStyle.HERO heroSettled
    "make it blue" "newHeroUrl" "img" 777 rfl rfl rfl

/-- C8.  A batch created by a generation run carries exactly one task per
style of the currently active catalog — its keys are the catalog itself, which
has no duplicates, so its size is the catalog's size — and switching the
subject mode to a different one discards the prior batch's tasks entirely. -/
theorem batch_matches_active_catalog (s : AppState) (now : Nat) (src : String)
    (hsrc : s.sourceImage = some src) :
    ((handleGenerateStart s now).generatedShots.map Prod.fst
        = activeStyles s.subjectType)
    ∧ (activeStyles s.subjectType).Nodup
    ∧ ((handleGenerateStart s now).generatedShots.length
        = (activeStyles s.subjectType).length)
    ∧ ∀ t : SubjectType, t ≠ s.subjectType →
        (handleModeSelect s t).generatedShots = [] := by
  have hkeys : (handleGenerateStart s now).generatedShots.map Prod.fst
      = activeStyles s.subjectType := by
    unfold handleGenerateStart
    rw [hsrc]
    cases hst : s.subjectType <;> simp [hst, activeStyles] <;> rfl
  refine ⟨hkeys, ?_, ?_, ?_⟩
  · cases hst : s.subjectType <;> simp [activeStyles] <;> decide
  · have := congrArg List.length hkeys
    simpa using this
  · intro t ht
    simp [handleModeSelect, ht]

/-- C8 witness: a generation run from a freshly uploaded image (PRODUCT
mode), and every mode switch away from PRODUCT. -/
theorem batch_matches_active_catalog_witness :
    ((handleGenerateStart uploadedFixture 5).generatedShots.map Prod.fst
        = activeStyles uploadedFixture.subjectType)
    ∧ (activeStyles uploadedFixture.subjectType).Nodup
    ∧ ((handleGenerateStart uploadedFixture 5).generatedShots.length
        = (activeStyles uploadedFixture.subjectType).length)
    ∧ ∀ t : SubjectType, t ≠ uploadedFixture.subjectType →
        (handleModeSelect uploadedFixture t).generatedShots = [] :=
  batch_matches_active_catalog uploadedFixture 5 "img" rfl

end SupaShots
